import Mathlib

/-!
Verification development for the manga-reader2 repository.

The Go source is shallowly embedded: every definition below mirrors one
function of the repository (the file and symbol are named in its doc
comment).  Stateful code is modelled by explicit state passing; machine
integers by Int/Nat; fallible code by Except.  The Redis client and the
authoritative Postgres stores are modelled at the interface boundary the
use cases see (exact-match key/value operations, find-by-id stores).
-/

set_option autoImplicit false

namespace MangaReader

/-! ## Error model (internal/common/errors, errors.go) -/

/-- Error codes, mirroring the ErrorCode string constants of errors.go. -/
inductive ErrorCode where
  | internalError
  | badRequest
  | unauthorized
  | forbidden
  | notFound
  | conflict
  | validation
  | database
  | mangaNotFound
  | chapterNotFound
  | pageNotFound
  | userNotFound
  | userExists
  | invalidCreds
  | jwtInvalid
  | jwtExpired
deriving DecidableEq, Repr

/-- AppError, mirroring errors.AppError.  The StatusCode, Details and the
wrapped Err fields are HTTP-rendering / logging concerns and carry no
behaviour in the embedded operations, so they are omitted. -/
structure AppError where
  code : ErrorCode
  message : String
deriving DecidableEq, Repr

def newInternalError (msg : String) : AppError :=
  ⟨ErrorCode.internalError, msg⟩

def newUnauthorizedError (msg : String) : AppError :=
  ⟨ErrorCode.unauthorized, msg⟩

def newConflictError (msg : String) : AppError :=
  ⟨ErrorCode.conflict, msg⟩

def newValidationError (msg : String) : AppError :=
  ⟨ErrorCode.validation, msg⟩

def newDatabaseError (msg : String) : AppError :=
  ⟨ErrorCode.database, msg⟩

def newMangaNotFoundError (id : Int) : AppError :=
  ⟨ErrorCode.mangaNotFound, s!"Манга с ID {id} не найдена"⟩

def newChapterNotFoundError (id : Int) : AppError :=
  ⟨ErrorCode.chapterNotFound, s!"Глава с ID {id} не найдена"⟩

def newUserNotFoundError (id : Int) : AppError :=
  ⟨ErrorCode.userNotFound, s!"Пользователь {id} не найден"⟩

/-- NewUserNotFoundError is also called with a string identifier
(username or email). -/
def newUserNotFoundErrorStr (ident : String) : AppError :=
  ⟨ErrorCode.userNotFound, s!"Пользователь {ident} не найден"⟩

def newUserExistsError (username : String) : AppError :=
  ⟨ErrorCode.userExists, s!"Пользователь с именем {username} уже существует"⟩

def newInvalidCredentialsError : AppError :=
  ⟨ErrorCode.invalidCreds, "Неверное имя пользователя или пароль"⟩

def newJWTInvalidError : AppError :=
  ⟨ErrorCode.jwtInvalid, "Недействительный токен авторизации"⟩

def newJWTExpiredError : AppError :=
  ⟨ErrorCode.jwtExpired, "Срок действия токена авторизации истек"⟩

/-! ## Entities (internal/domain/entity) -/

/-- entity.Manga.  CreatedAt/UpdatedAt are set by the database and never
read by the embedded operations, so they are omitted. -/
structure Manga where
  ID : Int
  Title : String
  Description : String
  CoverImage : String
  Status : String
  Author : String
  Artist : String
  Genres : List String
deriving DecidableEq, Repr

/-- entity.MangaFilter. -/
structure MangaFilter where
  Title : String
  Genres : List String
  Status : String
  Limit : Int
  Offset : Int
deriving DecidableEq, Repr

/-- entity.Chapter.  Number is float64 in Go; the embedded operations only
store and copy it, never compute on it, so it is modelled as Int. -/
structure Chapter where
  ID : Int
  MangaID : Int
  Number : Int
  Title : String
deriving DecidableEq, Repr

/-- entity.ChapterWithStats. -/
structure ChapterWithStats where
  chapter : Chapter
  Views : Int
deriving DecidableEq, Repr

/-- entity.User.  CreatedAt/UpdatedAt omitted as for Manga. -/
structure User where
  ID : Int
  Username : String
  Email : String
  Password : String
  Role : String
deriving DecidableEq, Repr

/-- entity.UserRegistration. -/
structure UserRegistration where
  Username : String
  Email : String
  Password : String
deriving DecidableEq, Repr

/-! ## Cache model (redis CacheRepository over db.RedisClient)

The repository stores JSON-serialized values under string keys.  The
json.Marshal / json.Unmarshal round trip is modelled by a typed value:
a cache entry holding a value of the wrong constructor models a stored
string that fails to unmarshal into the requested type (the use cases
treat that exactly like a miss, after logging). -/

inductive CacheVal where
  | mangaVal (m : Manga)
  | mangaListVal (ms : List Manga)
  | chapterVal (c : Chapter)
deriving DecidableEq, Repr

/-- The key/value state of the Redis store, as an association list. -/
abbrev Cache := List (String × CacheVal)

/-- Redis GET: exact-match lookup.  A missing key is Redis "redis: nil",
which CacheRepository.Get surfaces as an error; the use cases check
err == nil, so a miss and a Get error take the same branch. -/
def cacheLookup (st : Cache) (key : String) : Option CacheVal :=
  (st.find? (fun e => e.1 == key)).map (fun e => e.2)

/-- Redis SET: overwrite the value stored under the key. -/
def cacheInsert (key : String) (v : CacheVal) (st : Cache) : Cache :=
  (key, v) :: st.filter (fun e => e.1 != key)

/-- Redis DEL (RedisClient.Delete, redis.go line 75): deletes by EXACT key
match only; no pattern semantics. -/
def cacheDelete (key : String) (st : Cache) : Cache :=
  st.filter (fun e => e.1 != key)

/-- Which cache operations fail on a given run (Redis unavailability).
A failing Get returns an error, which the use cases treat as a miss;
a failing Set leaves the store unchanged (the use cases log and go on). -/
structure CacheFaults where
  getFails : Bool
  setFails : Bool
deriving DecidableEq, Repr

def noFaults : CacheFaults := ⟨false, false⟩

/-- Observable outcome of one cached read operation: the returned value or
error, the cache state afterwards, and how often the authoritative
repository, the cache Get and the cache Set were invoked. -/
structure ReadResult (α : Type) where
  result : Except AppError α
  cache : Cache
  repoCalls : Nat
  cacheGets : Nat
  cacheSets : Nat
  views : List Int
deriving Repr

/-! ## Manga use case, read paths (internal/usecase/manga.go) -/

def mangaKey (id : Int) : String := s!"manga:{id}"

def mangaListKey (limit offset : Int) : String :=
  s!"manga:list:{limit}:{offset}"

/-- mangaUseCase.GetByID (manga.go lines 72-102).  The authoritative
repository is the abstract loader repo; analytics RecordMangaView errors
are logged only, so the view event is recorded unconditionally in the
views trace. -/
def mangaGetByID (repo : Int → Except AppError Manga) (f : CacheFaults)
    (cache : Cache) (id : Int) : ReadResult Manga :=
  let key := mangaKey id
  let got := if f.getFails then none else cacheLookup cache key
  match got with
  | some (CacheVal.mangaVal m) =>
      ⟨Except.ok m, cache, 0, 1, 0, [id]⟩
  | _ =>
      match repo id with
      | Except.error e => ⟨Except.error e, cache, 1, 1, 0, []⟩
      | Except.ok m =>
          ⟨Except.ok m,
           if f.setFails then cache else cacheInsert key (CacheVal.mangaVal m) cache,
           1, 1, 1, [id]⟩

/-- mangaUseCase.List (manga.go lines 105-133).  The cache is consulted and
populated only when no filter (title/status/genres) is active. -/
def mangaList (repoList : MangaFilter → Except AppError (List Manga))
    (f : CacheFaults) (cache : Cache) (filter : MangaFilter) :
    ReadResult (List Manga) :=
  if filter.Title == "" && filter.Status == "" && filter.Genres.length == 0 then
    let key := mangaListKey filter.Limit filter.Offset
    let got := if f.getFails then none else cacheLookup cache key
    match got with
    | some (CacheVal.mangaListVal ms) =>
        ⟨Except.ok ms, cache, 0, 1, 0, []⟩
    | _ =>
        match repoList filter with
        | Except.error e => ⟨Except.error e, cache, 1, 1, 0, []⟩
        | Except.ok ms =>
            ⟨Except.ok ms,
             if f.setFails then cache else cacheInsert key (CacheVal.mangaListVal ms) cache,
             1, 1, 1, []⟩
  else
    match repoList filter with
    | Except.error e => ⟨Except.error e, cache, 1, 0, 0, []⟩
    | Except.ok ms => ⟨Except.ok ms, cache, 1, 0, 0, []⟩

/-! ## Chapter use case, read path (internal/usecase/chapter.go) -/

def chapterKey (id : Int) : String := s!"chapter:{id}"

/-- chapterUseCase.GetByID (chapter.go lines 83-132).  getViews models
analyticsRepo.GetChapterViews; none models its error, which the code logs
and replaces by 0 views. -/
def chapterGetByID (repo : Int → Except AppError Chapter)
    (getViews : Int → Option Int) (f : CacheFaults) (cache : Cache)
    (id : Int) : ReadResult ChapterWithStats :=
  let key := chapterKey id
  let got := if f.getFails then none else cacheLookup cache key
  match got with
  | some (CacheVal.chapterVal c) =>
      ⟨Except.ok ⟨c, (getViews id).getD 0⟩, cache, 0, 1, 0, [id]⟩
  | _ =>
      match repo id with
      | Except.error e => ⟨Except.error e, cache, 1, 1, 0, []⟩
      | Except.ok c =>
          ⟨Except.ok ⟨c, (getViews id).getD 0⟩,
           if f.setFails then cache else cacheInsert key (CacheVal.chapterVal c) cache,
           1, 1, 1, [id]⟩

/-! ## Manga use case, write paths (internal/usecase/manga.go)

The authoritative Postgres manga store is embedded as a list of rows with
a next-id counter; its CRUD semantics follow
internal/infrastructure/repository/postgres (MangaRepository). -/

/-- MangaRepository.GetByID: SELECT by id; sql.ErrNoRows becomes the typed
manga-not-found error. -/
def storeGetManga (store : List Manga) (id : Int) : Except AppError Manga :=
  match store.find? (fun m => m.ID == id) with
  | some m => Except.ok m
  | none => Except.error (newMangaNotFoundError id)

/-- Authoritative store plus cache, the state a mangaUseCase write
operation acts on. -/
structure MangaWorld where
  store : List Manga
  nextId : Int
  cache : Cache
deriving Repr

/-- mangaUseCase.invalidateMangaListCache (manga.go lines 241-243): a
single exact-match delete of the LITERAL key string containing an
asterisk. -/
def invalidateMangaListCache (cache : Cache) : Cache :=
  cacheDelete "manga:list:*" cache

/-- mangaUseCase.Create (manga.go lines 49-69).  Cache-delete errors are
logged only, so they do not appear in the result. -/
def mangaCreate (w : MangaWorld) (m : Manga) :
    Except AppError Manga × MangaWorld :=
  if m.Title == "" then
    (Except.error (newValidationError "Название манги не может быть пустым"), w)
  else
    let id := w.nextId
    let store1 := w.store ++ [{ m with ID := id }]
    match storeGetManga store1 id with
    | Except.error e => (Except.error e, ⟨store1, id + 1, w.cache⟩)
    | Except.ok created =>
        (Except.ok created, ⟨store1, id + 1, invalidateMangaListCache w.cache⟩)

/-- MangaRepository.Update: UPDATE by id; zero rows affected becomes the
typed manga-not-found error. -/
def storeUpdateManga (store : List Manga) (m : Manga) :
    Except AppError (List Manga) :=
  if store.any (fun x => x.ID == m.ID) then
    Except.ok (store.map (fun x => if x.ID == m.ID then m else x))
  else
    Except.error (newMangaNotFoundError m.ID)

/-- mangaUseCase.Update (manga.go lines 136-165). -/
def mangaUpdate (w : MangaWorld) (m : Manga) :
    Except AppError Manga × MangaWorld :=
  match storeGetManga w.store m.ID with
  | Except.error e => (Except.error e, w)
  | Except.ok _ =>
      if m.Title == "" then
        (Except.error (newValidationError "Название манги не может быть пустым"), w)
      else
        match storeUpdateManga w.store m with
        | Except.error e => (Except.error e, w)
        | Except.ok store1 =>
            match storeGetManga store1 m.ID with
            | Except.error e => (Except.error e, ⟨store1, w.nextId, w.cache⟩)
            | Except.ok updated =>
                let c1 := cacheDelete (mangaKey m.ID) w.cache
                (Except.ok updated, ⟨store1, w.nextId, invalidateMangaListCache c1⟩)

/-- mangaUseCase.Delete (manga.go lines 168-188). -/
def mangaDelete (w : MangaWorld) (id : Int) :
    Except AppError Unit × MangaWorld :=
  match storeGetManga w.store id with
  | Except.error e => (Except.error e, w)
  | Except.ok _ =>
      let store1 := w.store.filter (fun x => x.ID != id)
      let c1 := cacheDelete (mangaKey id) w.cache
      (Except.ok (), ⟨store1, w.nextId, invalidateMangaListCache c1⟩)

/-! ## Token service (internal/infrastructure/auth, JWT over HS256)

A signed compact token is embedded structurally.  HMAC-SHA256 is modelled
as an ideal MAC: the signature records the signing key and the signed
claim set, and verification is equality of that pair — so signatures made
with different secrets never verify, and a signature verifies only over
the exact claims it was computed on. -/

/-- auth.JWTService configuration. -/
structure JWTService where
  accessSecret : String
  refreshSecret : String
  accessExpires : Nat
  refreshExpires : Nat
deriving DecidableEq, Repr

/-- auth.NewJWTService: lifetimes are given in hours (access) and days
(refresh); seconds are the time unit of the model. -/
def newJWTService (accessSecret refreshSecret : String)
    (accessExpHours refreshExpDays : Nat) : JWTService :=
  ⟨accessSecret, refreshSecret, accessExpHours * 3600, refreshExpDays * 86400⟩

/-- auth.Claims: the custom fields plus jwt.RegisteredClaims
(exp / iat / nbf / sub); times in seconds. -/
structure Claims where
  UserID : Int
  Username : String
  Role : String
  ExpiresAt : Nat
  IssuedAt : Nat
  NotBefore : Nat
  Subject : String
deriving DecidableEq, Repr

/-- The alg header of a token: the service signs with HS256 and the
keyfunc rejects any non-HMAC method. -/
inductive SigMethod where
  | hs256
  | other (alg : String)
deriving DecidableEq, Repr

/-- An ideal MAC tag: the key and the payload it authenticates. -/
structure Signature where
  key : String
  payload : Claims
deriving DecidableEq, Repr

def hmacSign (secret : String) (c : Claims) : Signature :=
  ⟨secret, c⟩

/-- A signed compact token (header.payload.signature). -/
structure SignedToken where
  method : SigMethod
  claims : Claims
  sig : Signature
deriving DecidableEq, Repr

/-- entity.TokenPair. -/
structure TokenPair where
  AccessToken : SignedToken
  RefreshToken : SignedToken
deriving DecidableEq, Repr

/-- JWTService.GenerateAccessToken (user.go auth part, lines 266-288):
full claim set, exp = now + accessExpires, signed with the access
secret. -/
def generateAccessToken (svc : JWTService) (user : User) (now : Nat) :
    SignedToken :=
  let claims : Claims :=
    ⟨user.ID, user.Username, user.Role,
     now + svc.accessExpires, now, now, toString user.ID⟩
  ⟨SigMethod.hs256, claims, hmacSign svc.accessSecret claims⟩

/-- JWTService.GenerateRefreshToken (lines 291-311): user id and subject
only, exp = now + refreshExpires, signed with the refresh secret. -/
def generateRefreshToken (svc : JWTService) (userID : Int) (now : Nat) :
    SignedToken :=
  let claims : Claims :=
    ⟨userID, "", "", now + svc.refreshExpires, now, now, toString userID⟩
  ⟨SigMethod.hs256, claims, hmacSign svc.refreshSecret claims⟩

/-- JWTService.GenerateTokenPair (lines 248-263). -/
def generateTokenPair (svc : JWTService) (user : User) (now : Nat) :
    TokenPair :=
  ⟨generateAccessToken svc user now, generateRefreshToken svc user.ID now⟩

/-- The two error kinds validateToken distinguishes: the "токен истек"
message for jwt.ErrTokenExpired, and everything else. -/
inductive TokenError where
  | expired
  | invalid
deriving DecidableEq, Repr

/-- JWTService.validateToken (lines 324-345) over golang-jwt v4 semantics:
the keyfunc rejects non-HMAC methods before claims are validated; claims
validation and signature verification both run and their failures
accumulate, and the wrapper asks errors.Is(err, jwt.ErrTokenExpired)
first, so an expired token reports expired even alongside other
failures; any other failure (not-yet-valid, bad signature) is the
generic invalid kind. -/
def validateToken (tok : SignedToken) (secret : String) (now : Nat) :
    Except TokenError Claims :=
  match tok.method with
  | SigMethod.other _ => Except.error TokenError.invalid
  | SigMethod.hs256 =>
      if tok.claims.ExpiresAt ≤ now then Except.error TokenError.expired
      else if now < tok.claims.NotBefore then Except.error TokenError.invalid
      else if tok.sig ≠ hmacSign secret tok.claims then Except.error TokenError.invalid
      else Except.ok tok.claims

/-- JWTService.ValidateAccessToken (lines 314-316). -/
def validateAccessToken (svc : JWTService) (tok : SignedToken) (now : Nat) :
    Except TokenError Claims :=
  validateToken tok svc.accessSecret now

/-- JWTService.ValidateRefreshToken (lines 319-321). -/
def validateRefreshToken (svc : JWTService) (tok : SignedToken) (now : Nat) :
    Except TokenError Claims :=
  validateToken tok svc.refreshSecret now

/-- JWTService.RefreshTokens (lines 348-359): validates the refresh token,
asserts the embedded user id matches the supplied user, then mints a
fresh pair.  Errors are plain strings in the source. -/
def jwtRefreshTokens (svc : JWTService) (refreshTok : SignedToken)
    (user : User) (now : Nat) : Except String TokenPair :=
  match validateRefreshToken svc refreshTok now with
  | Except.error TokenError.expired => Except.error "токен истек"
  | Except.error TokenError.invalid => Except.error "недействительный токен"
  | Except.ok claims =>
      if claims.UserID ≠ user.ID then
        Except.error "user_id не соответствует refresh token"
      else
        Except.ok (generateTokenPair svc user now)

/-! ## User store (internal/infrastructure/repository/postgres, user.go) -/

/-- The users table: rows plus the id sequence. -/
structure UserStore where
  users : List User
  nextId : Int
deriving Repr

/-- UserRepository.GetByID (user.go lines 69-88). -/
def userGetByID (st : UserStore) (id : Int) : Except AppError User :=
  match st.users.find? (fun u => u.ID == id) with
  | some u => Except.ok u
  | none => Except.error (newUserNotFoundError id)

/-- UserRepository.GetByUsername (lines 91-110). -/
def userGetByUsername (st : UserStore) (username : String) :
    Except AppError User :=
  match st.users.find? (fun u => u.Username == username) with
  | some u => Except.ok u
  | none => Except.error (newUserNotFoundErrorStr username)

/-- UserRepository.GetByEmail (lines 113-132). -/
def userGetByEmail (st : UserStore) (email : String) :
    Except AppError User :=
  match st.users.find? (fun u => u.Email == email) with
  | some u => Except.ok u
  | none => Except.error (newUserNotFoundErrorStr email)

/-- UserRepository.Create (lines 30-66): INSERT with the unique
constraints on username and email mapped to the typed conflict errors. -/
def userCreate (st : UserStore) (u : User) :
    Except AppError (Int × UserStore) :=
  if st.users.any (fun x => x.Username == u.Username) then
    Except.error (newUserExistsError u.Username)
  else if st.users.any (fun x => x.Email == u.Email) then
    Except.error (newConflictError "Пользователь с таким email уже существует")
  else
    let id := st.nextId
    Except.ok (id, ⟨st.users ++ [{ u with ID := id }], id + 1⟩)

/-- UserRepository.Update (lines 135-179): UPDATE by id; if the row
exists, a collision of the new username/email with another row raises the
unique-constraint conflict; if no row matches the id, the typed
user-not-found error is returned. -/
def userUpdate (st : UserStore) (u : User) : Except AppError UserStore :=
  if st.users.any (fun x => x.ID == u.ID) then
    if st.users.any (fun x => x.ID != u.ID && x.Username == u.Username) then
      Except.error (newUserExistsError u.Username)
    else if st.users.any (fun x => x.ID != u.ID && x.Email == u.Email) then
      Except.error (newConflictError "Пользователь с таким email уже существует")
    else
      Except.ok ⟨st.users.map (fun x => if x.ID == u.ID then u else x), st.nextId⟩
  else
    Except.error (newUserNotFoundError u.ID)

/-! ## Validation patterns (internal/usecase/user.go)

The two regexps are embedded by their match semantics: a string matches
an anchored concatenation of character classes iff it decomposes into the
corresponding segments. -/

/-- Character class of the username pattern [a-zA-Z0-9_]. -/
def isUsernameChar (c : Char) : Bool :=
  c.isAlphanum || c == '_'

/-- The anchored pattern of one-or-more username characters. -/
def usernameMatches (s : String) : Bool :=
  s != "" && s.toList.all isUsernameChar

/-- Local-part class of the email pattern. -/
def isEmailLocalChar (c : Char) : Bool :=
  c.isAlphanum || c == '.' || c == '_' || c == '%' || c == '+' || c == '-'

/-- Domain class of the email pattern. -/
def isEmailDomainChar (c : Char) : Bool :=
  c.isAlphanum || c == '.' || c == '-'

/-- Two-or-more letters, the top-level-domain segment. -/
def tldMatches (cs : List Char) : Bool :=
  decide (2 ≤ cs.length) && cs.all Char.isAlpha

/-- One-or-more domain characters, a dot, then the TLD segment. -/
def domainMatches (cs : List Char) : Bool :=
  (List.range cs.length).any (fun i =>
    decide (1 ≤ i) && (cs.take i).all isEmailDomainChar &&
    cs[i]? == some '.' && tldMatches (cs.drop (i + 1)))

/-- The full anchored email pattern: local part, at sign, domain. -/
def emailMatches (s : String) : Bool :=
  (List.range s.toList.length).any (fun i =>
    decide (1 ≤ i) && (s.toList.take i).all isEmailLocalChar &&
    s.toList[i]? == some '@' && domainMatches (s.toList.drop (i + 1)))

/-! ## User use case (internal/usecase/user.go) -/

/-- userUseCase.Register (user.go lines 47-114).  hash models
bcrypt.GenerateFromPassword (which only fails on impossible inputs).  In
the model every repository error is an AppError, so the errors.As guards
after the duplicate lookups always pass and execution continues.
Password length is byte length in Go; character length here. -/
def register (hash : String → String) (st : UserStore)
    (reg : UserRegistration) : Except AppError User × UserStore :=
  if reg.Username == "" then
    (Except.error (newValidationError "Имя пользователя не может быть пустым"), st)
  else if reg.Email == "" then
    (Except.error (newValidationError "Email не может быть пустым"), st)
  else if reg.Password == "" then
    (Except.error (newValidationError "Пароль не может быть пустым"), st)
  else if !usernameMatches reg.Username then
    (Except.error (newValidationError "Имя пользователя может содержать только буквы, цифры и символ подчеркивания"), st)
  else if !emailMatches reg.Email then
    (Except.error (newValidationError "Некорректный email"), st)
  else if reg.Password.length < 6 then
    (Except.error (newValidationError "Пароль должен содержать минимум 6 символов"), st)
  else
    match userGetByUsername st reg.Username with
    | Except.ok _ => (Except.error (newUserExistsError reg.Username), st)
    | Except.error _ =>
        match userGetByEmail st reg.Email with
        | Except.ok _ =>
            (Except.error (newConflictError "Пользователь с таким email уже существует"), st)
        | Except.error _ =>
            match userCreate st ⟨0, reg.Username, reg.Email, hash reg.Password, "user"⟩ with
            | Except.error e => (Except.error e, st)
            | Except.ok (id, st1) =>
                match userGetByID st1 id with
                | Except.error e => (Except.error e, st1)
                | Except.ok createdUser =>
                    (Except.ok { createdUser with Password := "" }, st1)

/-- userUseCase.RefreshToken (user.go lines 151-172): the "токен истек"
validation message becomes the JWT_EXPIRED error, any other validation
failure the JWT_INVALID error; then the user is re-fetched by the id
embedded in the validated claims and, on success, a fresh pair is minted
from the fetched record. -/
def userRefreshToken (svc : JWTService) (st : UserStore) (now : Nat)
    (refreshTok : SignedToken) : Except AppError TokenPair :=
  match validateRefreshToken svc refreshTok now with
  | Except.error TokenError.expired => Except.error newJWTExpiredError
  | Except.error TokenError.invalid => Except.error newJWTInvalidError
  | Except.ok claims =>
      match userGetByID st claims.UserID with
      | Except.error e => Except.error e
      | Except.ok user => Except.ok (generateTokenPair svc user now)

/-- userUseCase.GetProfile (user.go lines 175-184). -/
def getProfile (st : UserStore) (userID : Int) : Except AppError User :=
  match userGetByID st userID with
  | Except.error e => Except.error e
  | Except.ok user => Except.ok { user with Password := "" }

/-- userUseCase.UpdateProfile (user.go lines 187-216): the current record
is fetched, ONLY its Username and Email are overwritten from the input,
the result is validated and written back, re-fetched, and returned with
the password blanked. -/
def updateProfile (st : UserStore) (user : User) :
    Except AppError User × UserStore :=
  match userGetByID st user.ID with
  | Except.error e => (Except.error e, st)
  | Except.ok currentUser =>
      -- after the overwrite, currentUser.Username/Email are the input's
      -- fields, so the validations read user.Username and user.Email
      if !usernameMatches user.Username then
        (Except.error (newValidationError "Имя пользователя может содержать только буквы, цифры и символ подчеркивания"), st)
      else if !emailMatches user.Email then
        (Except.error (newValidationError "Некорректный email"), st)
      else
        match userUpdate st { currentUser with Username := user.Username, Email := user.Email } with
        | Except.error e => (Except.error e, st)
        | Except.ok st1 =>
            match userGetByID st1 user.ID with
            | Except.error e => (Except.error e, st1)
            | Except.ok updatedUser =>
                (Except.ok { updatedUser with Password := "" }, st1)

/-! ## Authentication middleware (internal/api/middleware/auth.go) -/

/-- The request data the middleware puts into the context on success. -/
structure AuthCtx where
  userID : Int
  role : String
  username : String
deriving DecidableEq, Repr

/-- middleware.Authentication (auth.go lines 26-55).  The Authorization
header is modelled as an optional scheme word plus token (tokens are
structural values in the embedding, so the SplitN string parsing reduces
to checking the scheme).  EVERY access-token validation failure is
wrapped as NewJWTInvalidError. -/
def authentication (svc : JWTService)
    (header : Option (String × SignedToken)) (now : Nat) :
    Except AppError AuthCtx :=
  match header with
  | none =>
      Except.error (newUnauthorizedError "Отсутствует заголовок Authorization")
  | some (scheme, tok) =>
      if scheme != "Bearer" then
        Except.error (newUnauthorizedError "Неверный формат заголовка Authorization")
      else
        match validateAccessToken svc tok now with
        | Except.error _ => Except.error newJWTInvalidError
        | Except.ok claims => Except.ok ⟨claims.UserID, claims.Role, claims.Username⟩

/-! ## Helper lemmas about the cache and the stores -/

theorem cacheLookup_insert_self (key : String) (v : CacheVal) (st : Cache) :
    cacheLookup (cacheInsert key v st) key = some v := by
  simp [cacheLookup, cacheInsert, List.find?]

theorem cacheLookup_delete_self (key : String) (st : Cache) :
    cacheLookup (cacheDelete key st) key = none := by
  induction st with
  | nil => rfl
  | cons e tl ih =>
      by_cases h : e.1 = key
      · simp [cacheDelete, cacheLookup, h]
      · simp [cacheDelete, cacheLookup, List.find?, h]

theorem userGetByID_ok_id (st : UserStore) (id : Int) (u : User)
    (h : userGetByID st id = Except.ok u) : u.ID = id := by
  unfold userGetByID at h
  cases hf : st.users.find? (fun x => x.ID == id) with
  | none => rw [hf] at h; cases h
  | some w =>
      rw [hf] at h
      cases h
      have := List.find?_some hf
      simpa using this

/-! ## Concrete data for the write-path scenario -/

def c1MangaA : Manga := ⟨1, "Alpha", "", "", "ongoing", "", "", []⟩

def c1MangaB : Manga := ⟨0, "Beta", "", "", "ongoing", "", "", []⟩

/-- A world in which a previous unfiltered List(limit 10, offset 0) call
has populated the list cache. -/
def c1World : MangaWorld :=
  ⟨[c1MangaA], 2, [(mangaListKey 10 0, CacheVal.mangaListVal [c1MangaA])]⟩

def c1EmptyFilter : MangaFilter := ⟨"", [], "", 10, 0⟩

def c1AfterCreate : MangaWorld := (mangaCreate c1World c1MangaB).2

def c1AfterUpdate : MangaWorld :=
  (mangaUpdate c1World ⟨1, "Alpha2", "", "", "ongoing", "", "", []⟩).2

def c1AfterDelete : MangaWorld := (mangaDelete c1World 1).2

/-- C1: the claim (after mangaUseCase.Create/Update/Delete, the next List
with an empty filter must invoke mangaRepo.List rather than serve the
pre-write cached list) FAILS on the code: invalidateMangaListCache
performs an exact-match delete of the literal key "manga:list:*", so the
entry under "manga:list:10:0" survives every write and the next
unfiltered List serves the stale pre-write list with zero repository
calls.  Each conjunct evaluates the embedded code after one write: the
cached key survives, List answers from the cache (repoCalls = 0) with
the pre-write list, while the authoritative store has changed. -/
theorem c1_list_cache_stale_after_writes :
    (cacheLookup c1AfterCreate.cache (mangaListKey 10 0) =
        some (CacheVal.mangaListVal [c1MangaA]) ∧
      (mangaList (fun _ => Except.ok c1AfterCreate.store) noFaults
          c1AfterCreate.cache c1EmptyFilter).repoCalls = 0 ∧
      (mangaList (fun _ => Except.ok c1AfterCreate.store) noFaults
          c1AfterCreate.cache c1EmptyFilter).result = Except.ok [c1MangaA] ∧
      c1AfterCreate.store =
        [c1MangaA, ⟨2, "Beta", "", "", "ongoing", "", "", []⟩]) ∧
    (cacheLookup c1AfterUpdate.cache (mangaListKey 10 0) =
        some (CacheVal.mangaListVal [c1MangaA]) ∧
      (mangaList (fun _ => Except.ok c1AfterUpdate.store) noFaults
          c1AfterUpdate.cache c1EmptyFilter).repoCalls = 0 ∧
      (mangaList (fun _ => Except.ok c1AfterUpdate.store) noFaults
          c1AfterUpdate.cache c1EmptyFilter).result = Except.ok [c1MangaA] ∧
      c1AfterUpdate.store = [⟨1, "Alpha2", "", "", "ongoing", "", "", []⟩]) ∧
    (cacheLookup c1AfterDelete.cache (mangaListKey 10 0) =
        some (CacheVal.mangaListVal [c1MangaA]) ∧
      (mangaList (fun _ => Except.ok c1AfterDelete.store) noFaults
          c1AfterDelete.cache c1EmptyFilter).repoCalls = 0 ∧
      (mangaList (fun _ => Except.ok c1AfterDelete.store) noFaults
          c1AfterDelete.cache c1EmptyFilter).result = Except.ok [c1MangaA] ∧
      c1AfterDelete.store = []) := by
  refine ⟨⟨?_, ?_, ?_, ?_⟩, ⟨?_, ?_, ?_, ?_⟩, ⟨?_, ?_, ?_, ?_⟩⟩ <;> rfl

/-- C2: for any user, provided the two secrets differ, validating the
access token of a fresh pair within its lifetime succeeds with the
user's id/username/role in the claims, and validating that same access
token as a refresh token (wrong secret) fails with the generic invalid
error, not success and not expired. -/
theorem c2_token_roundtrip (svc : JWTService) (user : User) (now t : Nat)
    (hsec : svc.accessSecret ≠ svc.refreshSecret)
    (hnb : now ≤ t) (hexp : t < now + svc.accessExpires) :
    validateAccessToken svc (generateAccessToken svc user now) t =
      Except.ok ⟨user.ID, user.Username, user.Role,
        now + svc.accessExpires, now, now, toString user.ID⟩ ∧
    validateRefreshToken svc (generateAccessToken svc user now) t =
      Except.error TokenError.invalid := by
  have h1 : ¬ (now + svc.accessExpires ≤ t) := by omega
  have h2 : ¬ (t < now) := by omega
  constructor
  · simp [validateAccessToken, validateToken, generateAccessToken, hmacSign, h1, h2]
  · simp [validateRefreshToken, validateToken, generateAccessToken, hmacSign, h1, h2,
      Signature.mk.injEq, hsec]

/-- C2 witness: the round trip evaluated on a concrete service and user. -/
theorem c2_token_roundtrip_witness :
    validateAccessToken ⟨"acc", "ref", 3600, 86400⟩
        (generateAccessToken ⟨"acc", "ref", 3600, 86400⟩
          ⟨7, "alice", "a@x.co", "pw", "user"⟩ 0) 10 =
      Except.ok ⟨7, "alice", "user", 3600, 0, 0, "7"⟩ ∧
    validateRefreshToken ⟨"acc", "ref", 3600, 86400⟩
        (generateAccessToken ⟨"acc", "ref", 3600, 86400⟩
          ⟨7, "alice", "a@x.co", "pw", "user"⟩ 0) 10 =
      Except.error TokenError.invalid :=
  c2_token_roundtrip ⟨"acc", "ref", 3600, 86400⟩
    ⟨7, "alice", "a@x.co", "pw", "user"⟩ 0 10
    (by decide) (by decide) (by decide)

def c3Svc : JWTService := ⟨"acc", "ref", 3600, 86400⟩

def c3User : User := ⟨5, "bob", "b@x.co", "pw", "user"⟩

/-- C3 counterexample: the claim asserts the Authentication middleware's
response to an expired, correctly signed bearer token is the Expired
kind, not JWT_INVALID.  At this concrete input (access lifetime 3600s,
validated at t = 4000) the middleware's response is the JWT_INVALID
error, so the claim as stated is false: auth.go wraps every validation
failure, expiry included, in NewJWTInvalidError. -/
theorem c3_middleware_expired_is_invalid :
    authentication c3Svc (some ("Bearer", generateAccessToken c3Svc c3User 0)) 4000 =
      Except.error ⟨ErrorCode.jwtInvalid, "Недействительный токен авторизации"⟩ ∧
    ErrorCode.jwtInvalid ≠ ErrorCode.jwtExpired :=
  ⟨rfl, by decide⟩

/-- C3 (amended): a well-formed, correctly signed token past its expiry
is reported with the distinguishable expired kind by token validation,
and the refresh flow surfaces the JWT_EXPIRED error code; the
Authentication middleware, however, wraps every access-token validation
failure — expiry included — as JWT_INVALID. -/
theorem c3_expired_flows (svc : JWTService) (st : UserStore) (user : User)
    (now t : Nat)
    (hre : now + svc.refreshExpires ≤ t)
    (hae : now + svc.accessExpires ≤ t) :
    validateRefreshToken svc (generateRefreshToken svc user.ID now) t =
      Except.error TokenError.expired ∧
    userRefreshToken svc st t (generateRefreshToken svc user.ID now) =
      Except.error newJWTExpiredError ∧
    authentication svc (some ("Bearer", generateAccessToken svc user now)) t =
      Except.error newJWTInvalidError := by
  have h1 : validateRefreshToken svc (generateRefreshToken svc user.ID now) t =
      Except.error TokenError.expired := by
    simp [validateRefreshToken, validateToken, generateRefreshToken, hre]
  have h2 : validateAccessToken svc (generateAccessToken svc user now) t =
      Except.error TokenError.expired := by
    simp [validateAccessToken, validateToken, generateAccessToken, hae]
  refine ⟨h1, ?_, ?_⟩
  · simp [userRefreshToken, h1]
  · simp [authentication, h2]

/-- C3 witness: both expired flows evaluated on a concrete service, user
and time. -/
theorem c3_expired_flows_witness :
    validateRefreshToken c3Svc (generateRefreshToken c3Svc c3User.ID 0) 100000 =
      Except.error TokenError.expired ∧
    userRefreshToken c3Svc ⟨[], 1⟩ 100000 (generateRefreshToken c3Svc c3User.ID 0) =
      Except.error newJWTExpiredError ∧
    authentication c3Svc (some ("Bearer", generateAccessToken c3Svc c3User 0)) 100000 =
      Except.error newJWTInvalidError :=
  c3_expired_flows c3Svc ⟨[], 1⟩ c3User 0 100000 (by decide) (by decide)

/-- C4: after a GetByID succeeds on a cold key and writes the entity into
the cache, a second GetByID for the same id returns the cached entity
and invokes the authoritative repository zero times; this holds for the
manga and the chapter read paths alike. -/
theorem c4_cache_hit_avoids_loader
    (repoM : Int → Except AppError Manga) (cacheM : Cache) (id : Int) (m : Manga)
    (hcoldM : cacheLookup cacheM (mangaKey id) = none)
    (hrepoM : repoM id = Except.ok m)
    (repoC : Int → Except AppError Chapter) (getViews : Int → Option Int)
    (cacheC : Cache) (cid : Int) (c : Chapter)
    (hcoldC : cacheLookup cacheC (chapterKey cid) = none)
    (hrepoC : repoC cid = Except.ok c) :
    ((mangaGetByID repoM noFaults cacheM id).result = Except.ok m ∧
      (mangaGetByID repoM noFaults
        (mangaGetByID repoM noFaults cacheM id).cache id).result = Except.ok m ∧
      (mangaGetByID repoM noFaults
        (mangaGetByID repoM noFaults cacheM id).cache id).repoCalls = 0) ∧
    ((chapterGetByID repoC getViews noFaults cacheC cid).result =
        Except.ok ⟨c, (getViews cid).getD 0⟩ ∧
      (chapterGetByID repoC getViews noFaults
        (chapterGetByID repoC getViews noFaults cacheC cid).cache cid).result =
        Except.ok ⟨c, (getViews cid).getD 0⟩ ∧
      (chapterGetByID repoC getViews noFaults
        (chapterGetByID repoC getViews noFaults cacheC cid).cache cid).repoCalls = 0) := by
  have hm1 : mangaGetByID repoM noFaults cacheM id =
      ⟨Except.ok m, cacheInsert (mangaKey id) (CacheVal.mangaVal m) cacheM,
        1, 1, 1, [id]⟩ := by
    simp [mangaGetByID, noFaults, hcoldM, hrepoM]
  have hm2 : mangaGetByID repoM noFaults
      (cacheInsert (mangaKey id) (CacheVal.mangaVal m) cacheM) id =
      ⟨Except.ok m, cacheInsert (mangaKey id) (CacheVal.mangaVal m) cacheM,
        0, 1, 0, [id]⟩ := by
    simp [mangaGetByID, noFaults, cacheLookup_insert_self]
  have hc1 : chapterGetByID repoC getViews noFaults cacheC cid =
      ⟨Except.ok ⟨c, (getViews cid).getD 0⟩,
        cacheInsert (chapterKey cid) (CacheVal.chapterVal c) cacheC,
        1, 1, 1, [cid]⟩ := by
    simp [chapterGetByID, noFaults, hcoldC, hrepoC]
  have hc2 : chapterGetByID repoC getViews noFaults
      (cacheInsert (chapterKey cid) (CacheVal.chapterVal c) cacheC) cid =
      ⟨Except.ok ⟨c, (getViews cid).getD 0⟩,
        cacheInsert (chapterKey cid) (CacheVal.chapterVal c) cacheC,
        0, 1, 0, [cid]⟩ := by
    simp [chapterGetByID, noFaults, cacheLookup_insert_self]
  simp [hm1, hm2, hc1, hc2]

def c4Manga : Manga := ⟨3, "Gamma", "", "", "ongoing", "", "", []⟩

def c4Chapter : Chapter := ⟨8, 3, 1, "One"⟩

/-- C4 witness: the two-read scenario evaluated on a concrete repository
with one manga and one chapter and an initially empty cache. -/
theorem c4_cache_hit_avoids_loader_witness :
    ((mangaGetByID (fun _ => Except.ok c4Manga) noFaults [] 3).result =
        Except.ok c4Manga ∧
      (mangaGetByID (fun _ => Except.ok c4Manga) noFaults
        (mangaGetByID (fun _ => Except.ok c4Manga) noFaults [] 3).cache 3).result =
        Except.ok c4Manga ∧
      (mangaGetByID (fun _ => Except.ok c4Manga) noFaults
        (mangaGetByID (fun _ => Except.ok c4Manga) noFaults [] 3).cache 3).repoCalls = 0) ∧
    ((chapterGetByID (fun _ => Except.ok c4Chapter) (fun _ => some 6) noFaults [] 8).result =
        Except.ok ⟨c4Chapter, (some 6).getD 0⟩ ∧
      (chapterGetByID (fun _ => Except.ok c4Chapter) (fun _ => some 6) noFaults
        (chapterGetByID (fun _ => Except.ok c4Chapter) (fun _ => some 6) noFaults [] 8).cache 8).result =
        Except.ok ⟨c4Chapter, (some 6).getD 0⟩ ∧
      (chapterGetByID (fun _ => Except.ok c4Chapter) (fun _ => some 6) noFaults
        (chapterGetByID (fun _ => Except.ok c4Chapter) (fun _ => some 6) noFaults [] 8).cache 8).repoCalls = 0) :=
  c4_cache_hit_avoids_loader (fun _ => Except.ok c4Manga) [] 3 c4Manga rfl rfl
    (fun _ => Except.ok c4Chapter) (fun _ => some 6) [] 8 c4Chapter rfl rfl

/-- C5: on a cold cache, a loader failure is returned unchanged and
nothing is written to the cache: the cache state after the call equals
the state before it and the Set operation is never invoked. -/
theorem c5_loader_error_no_cache_write
    (repo : Int → Except AppError Manga) (cache : Cache) (id : Int)
    (e : AppError)
    (hcold : cacheLookup cache (mangaKey id) = none)
    (hrepo : repo id = Except.error e) :
    (mangaGetByID repo noFaults cache id).result = Except.error e ∧
    (mangaGetByID repo noFaults cache id).cache = cache ∧
    (mangaGetByID repo noFaults cache id).cacheSets = 0 := by
  simp [mangaGetByID, noFaults, hcold, hrepo]

/-- C5 witness: a repository that answers with the typed not-found error
for manga 42, queried against an empty cache. -/
theorem c5_loader_error_no_cache_write_witness :
    (mangaGetByID (fun i => Except.error (newMangaNotFoundError i)) noFaults [] 42).result =
      Except.error (newMangaNotFoundError 42) ∧
    (mangaGetByID (fun i => Except.error (newMangaNotFoundError i)) noFaults [] 42).cache = [] ∧
    (mangaGetByID (fun i => Except.error (newMangaNotFoundError i)) noFaults [] 42).cacheSets = 0 :=
  c5_loader_error_no_cache_write
    (fun i => Except.error (newMangaNotFoundError i)) [] 42
    (newMangaNotFoundError 42) rfl rfl

def c6MangaOld : Manga := ⟨1, "Old title", "", "", "ongoing", "", "", []⟩

def c6MangaNew : Manga := ⟨1, "New title", "", "", "ongoing", "", "", []⟩

def c6Repo : Int → Except AppError Manga := fun _ => Except.ok c6MangaNew

def c6Cache : Cache := [(mangaKey 1, CacheVal.mangaVal c6MangaOld)]

/-- C6 counterexample: the claim states that two runs differing only in
the cache Get/Set outcomes return the same entity.  With a stale but
decodable cache entry, the run whose Get succeeds returns the cached
entity while the run whose Get errors returns the repository's entity —
two different values, so the claim as stated is false. -/
theorem c6_result_differs_on_stale_hit :
    (mangaGetByID c6Repo ⟨false, false⟩ c6Cache 1).result = Except.ok c6MangaOld ∧
    (mangaGetByID c6Repo ⟨true, false⟩ c6Cache 1).result = Except.ok c6MangaNew ∧
    (mangaGetByID c6Repo ⟨false, false⟩ c6Cache 1).result ≠
      (mangaGetByID c6Repo ⟨true, false⟩ c6Cache 1).result := by
  refine ⟨rfl, rfl, ?_⟩
  intro h
  have h2 : (Except.ok c6MangaOld : Except AppError Manga) = Except.ok c6MangaNew := h
  injection h2 with h3
  exact absurd h3 (by decide)

/-- C6 (amended): a cache Get error is handled identically to a miss (a
Get-fault run returns the same (value, error) as a fault-free run on a
cache without the key), a cache Set error changes only the cache state
and never the returned (value, error), and any error the operation
returns is the repository's own error — no cache-layer error is ever the
operation's result. -/
theorem c6_cache_fault_semantics
    (repo : Int → Except AppError Manga) (cache : Cache) (id : Int)
    (gf sf : Bool) :
    ((mangaGetByID repo ⟨true, sf⟩ cache id).result =
      (mangaGetByID repo ⟨false, sf⟩ (cacheDelete (mangaKey id) cache) id).result) ∧
    ((mangaGetByID repo ⟨gf, true⟩ cache id).result =
      (mangaGetByID repo ⟨gf, false⟩ cache id).result) ∧
    (∀ e, (mangaGetByID repo ⟨gf, sf⟩ cache id).result = Except.error e →
      repo id = Except.error e) := by
  refine ⟨?_, ?_, ?_⟩
  · have hmiss : cacheLookup (cacheDelete (mangaKey id) cache) (mangaKey id) = none :=
      cacheLookup_delete_self _ _
    cases hr : repo id <;> simp [mangaGetByID, hmiss, hr]
  · cases gf with
    | true => cases hr : repo id <;> simp [mangaGetByID, hr]
    | false =>
        cases hl : cacheLookup cache (mangaKey id) with
        | none => cases hr : repo id <;> simp [mangaGetByID, hl, hr]
        | some v =>
            cases v <;> cases hr : repo id <;> simp [mangaGetByID, hl, hr]
  · intro e he
    cases gf with
    | true =>
        cases hr : repo id <;> simp [mangaGetByID, hr] at he
        all_goals simp_all
    | false =>
        cases hl : cacheLookup cache (mangaKey id) with
        | none =>
            cases hr : repo id <;> simp [mangaGetByID, hl, hr] at he
            all_goals simp_all
        | some v =>
            cases v with
            | mangaVal m => simp [mangaGetByID, hl] at he
            | mangaListVal ms =>
                cases hr : repo id <;> simp [mangaGetByID, hl, hr] at he
                all_goals simp_all
            | chapterVal c =>
                cases hr : repo id <;> simp [mangaGetByID, hl, hr] at he
                all_goals simp_all

/-- C6 (amended) witness: the error-origin clause evaluated on a concrete
repository whose answer for manga 3 is the typed not-found error, with
a Get fault. -/
theorem c6_cache_fault_semantics_witness :
    (fun i => Except.error (newMangaNotFoundError i) : Int → Except AppError Manga) 3 =
      Except.error (newMangaNotFoundError 3) :=
  (c6_cache_fault_semantics (fun i => Except.error (newMangaNotFoundError i))
    [] 3 true false).2.2 (newMangaNotFoundError 3) rfl

/-- C7: RefreshToken re-fetches, from the authoritative user store, the
user whose id is embedded in the validated refresh token; if the store
has no such user the store's error is returned unchanged and no tokens
are minted, and if it does the new pair is generated from the freshly
fetched record, so the access claims carry that record's username and
role and its user id equals the refresh token's embedded user id. -/
theorem c7_refresh_refetches_user
    (svc : JWTService) (st : UserStore) (t : Nat) (tok : SignedToken)
    (claims : Claims)
    (hval : validateRefreshToken svc tok t = Except.ok claims) :
    (∀ e, userGetByID st claims.UserID = Except.error e →
      userRefreshToken svc st t tok = Except.error e) ∧
    (∀ u, userGetByID st claims.UserID = Except.ok u →
      userRefreshToken svc st t tok = Except.ok (generateTokenPair svc u t) ∧
      (generateTokenPair svc u t).AccessToken.claims.Username = u.Username ∧
      (generateTokenPair svc u t).AccessToken.claims.Role = u.Role ∧
      (generateTokenPair svc u t).AccessToken.claims.UserID = u.ID ∧
      u.ID = claims.UserID) := by
  constructor
  · intro e he
    simp [userRefreshToken, hval, he]
  · intro u hu
    refine ⟨by simp [userRefreshToken, hval, hu], rfl, rfl, rfl, ?_⟩
    exact userGetByID_ok_id st claims.UserID u hu

def c7Svc : JWTService := ⟨"acc", "ref", 3600, 86400⟩

def c7User : User := ⟨4, "carol", "c@x.co", "h", "user"⟩

def c7Store : UserStore := ⟨[c7User], 9⟩

def c7Tok : SignedToken := generateRefreshToken c7Svc 4 0

/-- C7 witness: the refresh flow evaluated at a concrete valid refresh
token whose embedded user exists in the store. -/
theorem c7_refresh_refetches_user_witness :
    userRefreshToken c7Svc c7Store 100 c7Tok =
      Except.ok (generateTokenPair c7Svc c7User 100) ∧
    (generateTokenPair c7Svc c7User 100).AccessToken.claims.Username = c7User.Username ∧
    (generateTokenPair c7Svc c7User 100).AccessToken.claims.Role = c7User.Role ∧
    (generateTokenPair c7Svc c7User 100).AccessToken.claims.UserID = c7User.ID ∧
    c7User.ID = (⟨4, "", "", 86400, 0, 0, "4"⟩ : Claims).UserID :=
  (c7_refresh_refetches_user c7Svc c7Store 100 c7Tok
    ⟨4, "", "", 86400, 0, 0, "4"⟩ rfl).2 c7User rfl

/-- C8: a List call whose filter has a non-empty title, a non-empty
status, or non-empty genres bypasses the cache entirely — no cache Get,
no cache Set, the cache state is unchanged — and returns exactly the
result of mangaRepo.List on that filter. -/
theorem c8_filtered_list_bypasses_cache
    (repoList : MangaFilter → Except AppError (List Manga))
    (f : CacheFaults) (cache : Cache) (filter : MangaFilter)
    (hfil : filter.Title ≠ "" ∨ filter.Status ≠ "" ∨ filter.Genres ≠ []) :
    (mangaList repoList f cache filter).cacheGets = 0 ∧
    (mangaList repoList f cache filter).cacheSets = 0 ∧
    (mangaList repoList f cache filter).result = repoList filter ∧
    (mangaList repoList f cache filter).cache = cache := by
  have hcond : (filter.Title == "" && filter.Status == "" &&
      filter.Genres.length == 0) = false := by
    rcases hfil with h | h | h
    · simp [h]
    · simp [h]
    · have : filter.Genres.length ≠ 0 := by
        simpa [List.length_eq_zero] using h
      simp [this]
  cases hr : repoList filter <;> simp [mangaList, hcond, hr]

/-- C8 witness: a title-filtered List call against a concrete repository
and a non-empty cache. -/
theorem c8_filtered_list_bypasses_cache_witness :
    (mangaList (fun _ => Except.ok [c4Manga]) noFaults c6Cache
        ⟨"Gamma", [], "", 10, 0⟩).cacheGets = 0 ∧
    (mangaList (fun _ => Except.ok [c4Manga]) noFaults c6Cache
        ⟨"Gamma", [], "", 10, 0⟩).cacheSets = 0 ∧
    (mangaList (fun _ => Except.ok [c4Manga]) noFaults c6Cache
        ⟨"Gamma", [], "", 10, 0⟩).result = Except.ok [c4Manga] ∧
    (mangaList (fun _ => Except.ok [c4Manga]) noFaults c6Cache
        ⟨"Gamma", [], "", 10, 0⟩).cache = c6Cache :=
  c8_filtered_list_bypasses_cache (fun _ => Except.ok [c4Manga]) noFaults
    c6Cache ⟨"Gamma", [], "", 10, 0⟩ (Or.inl (by decide))

/-- C9: every user value a successful Register, GetProfile or
UpdateProfile returns has an empty Password field — the stored bcrypt
hash is never present in a returned user. -/
theorem c9_no_password_leak :
    (∀ (hash : String → String) (st : UserStore) (reg : UserRegistration)
        (u : User) (st1 : UserStore),
      register hash st reg = (Except.ok u, st1) → u.Password = "") ∧
    (∀ (st : UserStore) (id : Int) (u : User),
      getProfile st id = Except.ok u → u.Password = "") ∧
    (∀ (st : UserStore) (usr : User) (u : User) (st1 : UserStore),
      updateProfile st usr = (Except.ok u, st1) → u.Password = "") := by
  refine ⟨?_, ?_, ?_⟩
  · intro hash st reg u st1 h
    unfold register at h
    repeat' split at h
    all_goals rw [Prod.mk.injEq] at h
    all_goals obtain ⟨h1, h2⟩ := h
    all_goals first
      | (injection h1 with h1; exact congrArg User.Password h1.symm)
      | injection h1
  · intro st id u h
    unfold getProfile at h
    repeat' split at h
    all_goals first
      | (injection h with h1; exact congrArg User.Password h1.symm)
      | injection h
  · intro st usr u st1 h
    unfold updateProfile at h
    repeat' split at h
    all_goals rw [Prod.mk.injEq] at h
    all_goals obtain ⟨h1, h2⟩ := h
    all_goals first
      | (injection h1 with h1; exact congrArg User.Password h1.symm)
      | injection h1

/-- C9 witness: a concrete successful registration returns the user with
an empty password while the store keeps the hash. -/
theorem c9_no_password_leak_witness :
    (⟨1, "alice", "alice@example.com", "", "user"⟩ : User).Password = "" :=
  c9_no_password_leak.1 (fun p => "h:" ++ p) ⟨[], 1⟩
    ⟨"alice", "alice@example.com", "secret1"⟩
    ⟨1, "alice", "alice@example.com", "", "user"⟩
    ⟨[⟨1, "alice", "alice@example.com", "h:secret1", "user"⟩], 2⟩
    rfl

/-- If a record with the given id is found, replacing every record with
that id leaves the replacement as the record found afterwards. -/
theorem find_replace_eq (l : List User) (id : Int) (nw : User)
    (hid : nw.ID = id) (w : User)
    (hf : l.find? (fun x => x.ID == id) = some w) :
    (l.map (fun x => if x.ID == id then nw else x)).find?
      (fun x => x.ID == id) = some nw := by
  induction l with
  | nil => cases hf
  | cons a tl ih =>
      cases ha : (a.ID == id) with
      | true =>
          rw [List.map_cons,
            show (if (a.ID == id) = true then nw else a) = nw from if_pos ha,
            List.find?_cons_of_pos _ (by simp [hid])]
      | false =>
          rw [List.find?_cons_of_neg _ (by simp [ha])] at hf
          rw [List.map_cons,
            show (if (a.ID == id) = true then nw else a) = a from if_neg (by simp [ha]),
            List.find?_cons_of_neg _ (by simp [ha])]
          exact ih hf

/-- If userUpdate succeeds, re-fetching the updated id returns exactly
the record that was written. -/
theorem userUpdate_getByID (st : UserStore) (v : User) (st1 : UserStore)
    (w : User)
    (hf : st.users.find? (fun x => x.ID == v.ID) = some w)
    (hupd : userUpdate st v = Except.ok st1) :
    userGetByID st1 v.ID = Except.ok v := by
  unfold userUpdate at hupd
  split at hupd
  · split at hupd
    · cases hupd
    · split at hupd
      · cases hupd
      · injection hupd with h1
        subst h1
        unfold userGetByID
        rw [find_replace_eq st.users v.ID v rfl w hf]
  · cases hupd

/-- C10: UpdateProfile ignores the caller-supplied Role and Password (the
call's outcome is literally identical for any values of those fields),
and on success the stored record keeps the pre-call Role and Password
hash, with only Username and Email taken from the input; the returned
user is that record with the password blanked.  In particular a caller
cannot change their own role through UpdateProfile. -/
theorem c10_update_profile_frame (st : UserStore) (u : User) (r p : String) :
    (updateProfile st { u with Role := r, Password := p } = updateProfile st u) ∧
    (∀ (out : User) (st1 : UserStore) (cur : User),
      updateProfile st u = (Except.ok out, st1) →
      userGetByID st u.ID = Except.ok cur →
      userGetByID st1 u.ID =
        Except.ok { cur with Username := u.Username, Email := u.Email } ∧
      out = { cur with Username := u.Username, Email := u.Email, Password := "" }) := by
  constructor
  · rfl
  · intro out st1 cur h hcur
    have hcid : cur.ID = u.ID := userGetByID_ok_id st u.ID cur hcur
    have hf : st.users.find? (fun x => x.ID == u.ID) = some cur := by
      unfold userGetByID at hcur
      cases hff : st.users.find? (fun x => x.ID == u.ID) with
      | none => rw [hff] at hcur; cases hcur
      | some w =>
          rw [hff] at hcur
          injection hcur with hw
          rw [hw]
    unfold updateProfile at h
    rw [hcur] at h
    simp only [] at h
    split at h
    · simp at h
    · split at h
      · simp at h
      · split at h
        · simp at h
        · rename_i st2 hupd
          have hre : userGetByID st2
              ({ cur with Username := u.Username, Email := u.Email } : User).ID =
              Except.ok { cur with Username := u.Username, Email := u.Email } := by
            refine userUpdate_getByID st _ st2 cur ?_ hupd
            rw [show ({ cur with Username := u.Username, Email := u.Email } : User).ID = u.ID from hcid]
            exact hf
          have hreU : userGetByID st2 u.ID =
              Except.ok { cur with Username := u.Username, Email := u.Email } := by
            rw [← hcid]
            exact hre
          rw [hreU] at h
          rw [Prod.mk.injEq] at h
          obtain ⟨h1, h2⟩ := h
          injection h1 with h1
          subst h2
          constructor
          · exact hreU
          · exact h1.symm

/-- C10 witness: a concrete profile update that supplies a new role and
password; the stored record keeps the old role and hash, while username
and email change. -/
theorem c10_update_profile_frame_witness :
    userGetByID ⟨[⟨1, "bobby", "bob@x.co", "hash1", "user"⟩], 2⟩ 1 =
      Except.ok ⟨1, "bobby", "bob@x.co", "hash1", "user"⟩ ∧
    (⟨1, "bobby", "bob@x.co", "", "user"⟩ : User) =
      ⟨1, "bobby", "bob@x.co", "", "user"⟩ :=
  (c10_update_profile_frame ⟨[⟨1, "bob", "b@x.co", "hash1", "user"⟩], 2⟩
      ⟨1, "bobby", "bob@x.co", "evil", "admin"⟩ "r2" "p2").2
    ⟨1, "bobby", "bob@x.co", "", "user"⟩
    ⟨[⟨1, "bobby", "bob@x.co", "hash1", "user"⟩], 2⟩
    ⟨1, "bob", "b@x.co", "hash1", "user"⟩
    rfl rfl

end MangaReader
